import Mathlib

/-!
Verification development for the `spotify_stats` Home Assistant integration
(`custom_components/spotify_stats`). The definitions below are a shallow
embedding of `coordinator.py` and `services.py`:

* Remote API responses are modelled as Lean structures whose fields are
  `Option`-valued where the Python code may encounter a missing dictionary
  key; a direct Python dictionary access `d["k"]` is modelled by `getKey`
  (raising a `KeyError`-style `FetchError` when the key is absent), while a
  Python `d.get("k", default)` is modelled by `Option.getD`.
* A `spotipy.exceptions.SpotifyException` is modelled by `FetchError.api`
  carrying the HTTP status; all other Python exceptions raised while
  normalizing a response (`KeyError` / `IndexError` / `TypeError`) are
  modelled by `FetchError.keyError`.
* Blocking remote calls are modelled by an environment (`RemoteEnv`) that
  supplies, for each endpoint the coordinator touches in one refresh cycle,
  either the decoded response or the exception the call would raise.
* Wall-clock timestamps are integers (seconds); `dt_util.utcnow()` is a
  `now` parameter, a single instant per refresh cycle.
-/

namespace SpotifyStats

/-- Error raised while fetching/normalizing a remote response: either a
`SpotifyException` with an HTTP status (`api`), or a Python-level
`KeyError`/`IndexError` from probing a missing field (`keyError`). -/
inductive FetchError where
  | api (httpStatus : Nat) (msg : String)
  | keyError (key : String)
deriving Repr, DecidableEq

/-- Direct dictionary access `d["key"]`: raises a `KeyError` when absent. -/
def getKey {α : Type} (key : String) : Option α → Except FetchError α
  | some v => .ok v
  | none => .error (.keyError key)

/-- Python `xs[0]`: raises an `IndexError` on an empty list. -/
def headIdx {α : Type} : List α → Except FetchError α
  | [] => .error (.keyError "0")
  | x :: _ => .ok x

/-- Python truthiness of an optional string (`None` and `""` are falsy). -/
def truthyStr : Option String → Bool
  | none => false
  | some s => s != ""

/-- A Python `for` loop that appends one normalized entry per item and
propagates the first exception (structural equivalent of `mapM`). -/
def mapE {ε α β : Type} (f : α → Except ε β) : List α → Except ε (List β)
  | [] => .ok []
  | x :: xs => do
    let y ← f x
    let ys ← mapE f xs
    pure (y :: ys)

/-- A Python `for idx, x in enumerate(xs)` loop starting at index `n`. -/
def mapIdxE {ε α β : Type} (f : Nat → α → Except ε β) (n : Nat) : List α → Except ε (List β)
  | [] => .ok []
  | x :: xs => do
    let y ← f n x
    let ys ← mapIdxE f (n + 1) xs
    pure (y :: ys)

/-- Time ranges for top stats (`const.py`). -/
def TIME_RANGE_SHORT : String := "short_term"

/-- Six-month time range label (`const.py`). -/
def TIME_RANGE_MEDIUM : String := "medium_term"

/-- All-time time range label (`const.py`). -/
def TIME_RANGE_LONG : String := "long_term"

/-- Staleness threshold for the followed-artists bucket, seconds (`const.py`). -/
def UPDATE_INTERVAL_FOLLOWED : Int := 3600

/-- Staleness threshold for the top-stats buckets, seconds (`const.py`). -/
def UPDATE_INTERVAL_TOP_STATS : Int := 86400

/-! ### Remote response shapes -/

/-- An artist dictionary as returned by the remote service (fields the code
reads; `external_urls_spotify` collapses `artist["external_urls"]["spotify"]`,
absent when either level is missing; `images` is the list of image URLs). -/
structure ArtistObj where
  id : Option String
  name : Option String
  external_urls_spotify : Option String
  images : List String
  genres : Option (List String)
  popularity : Option Nat
deriving Repr, DecidableEq

/-- An album dictionary as returned by the remote service. -/
structure AlbumObj where
  id : Option String
  name : Option String
  images : List String
  artists : List ArtistObj
  external_urls_spotify : Option String
  uri : Option String
  total_tracks : Option Nat
  release_date : Option String
deriving Repr, DecidableEq

/-- A track dictionary as returned by the remote service. -/
structure TrackObj where
  id : Option String
  name : Option String
  artists : List ArtistObj
  album : Option AlbumObj
  external_urls_spotify : Option String
  uri : Option String
  duration_ms : Option Nat
  popularity : Option Nat
  explicit : Option Bool
deriving Repr, DecidableEq

/-- The `current_playback()` response body (when not `None`). -/
structure PlaybackState where
  item : Option TrackObj
  is_playing : Option Bool
  progress_ms : Option Nat
  shuffle_state : Option Bool
  repeat_state : Option String
deriving Repr, DecidableEq

/-- One item of the `current_user_recently_played` response. -/
structure PlayHistoryItem where
  played_at : Option String
  track : Option TrackObj
deriving Repr, DecidableEq

/-- One page of the `current_user_followed_artists` response (the
`response["artists"]` object: `items`, `next`, `cursors.after`). -/
structure ArtistsPage where
  items : List ArtistObj
  next : Option String
  cursorAfter : Option String
deriving Repr, DecidableEq

/-! ### Normalized records (the bucket values stored in the snapshot) -/

/-- The now-playing bucket record: `{"state": "idle"}` or the full payload. -/
inductive NowPlayingRecord where
  | idle
  | active (state : String) (track_id track_name artist_id artist_name album_name album_id : String)
      (image_url : Option String) (duration_ms progress_ms popularity : Nat)
      (track_url : String) (is_playing shuffle_state : Bool) (repeat_state : String)
deriving Repr, DecidableEq

/-- One normalized recently-played track. -/
structure PlayedTrack where
  played_at : String
  track_id : String
  track_name : String
  artist_id : String
  artist_name : String
  album_name : String
  album_id : String
  track_url : String
  duration_ms : Nat
  popularity : Nat
  explicit : Bool
deriving Repr, DecidableEq

/-- The recently-played bucket record. -/
structure RecentlyPlayedRecord where
  count : Nat
  tracks : List PlayedTrack
  last_played : Option String
deriving Repr, DecidableEq

/-- One normalized followed artist. -/
structure FollowedArtist where
  id : String
  name : String
  url : String
  image : Option String
  genres : List String
  popularity : Nat
deriving Repr, DecidableEq

/-- The followed-artists bucket record: full list plus a display list
truncated to 20. -/
structure FollowedArtistsRecord where
  count : Nat
  artists : List FollowedArtist
  all_artists : List FollowedArtist
deriving Repr, DecidableEq

/-! ### Fetchers: now playing, recently played, followed artists -/

/-- Embeds `_fetch_now_playing` (coordinator.py). The argument is the
outcome of `self.sp.current_playback()` (which may legitimately be `None`). -/
def fetch_now_playing (r : Except FetchError (Option PlaybackState)) :
    Except FetchError NowPlayingRecord := do
  let current ← r
  match current with
  | none => pure .idle
  | some c =>
    match c.item with
    | none => pure .idle
    | some track => do
      let is_playing ← getKey "is_playing" c.is_playing
      let track_id ← getKey "id" track.id
      let track_name ← getKey "name" track.name
      let a0 ← headIdx track.artists
      let artist_id ← getKey "id" a0.id
      let artist_name ← getKey "name" a0.name
      let album ← getKey "album" track.album
      let album_name ← getKey "name" album.name
      let album_id ← getKey "id" album.id
      let duration_ms ← getKey "duration_ms" track.duration_ms
      let track_url ← getKey "spotify" track.external_urls_spotify
      pure (.active (if is_playing then "playing" else "paused")
        track_id track_name artist_id artist_name album_name album_id
        album.images.head? duration_ms (c.progress_ms.getD 0) (track.popularity.getD 0)
        track_url is_playing (c.shuffle_state.getD false) (c.repeat_state.getD "off"))

/-- Normalization of one recently-played item (the loop body of
`_fetch_recently_played`): every field access is a direct `d["k"]`, so a
missing field raises and aborts the whole fetch. -/
def normalizeRecentItem (item : PlayHistoryItem) : Except FetchError PlayedTrack := do
  let track ← getKey "track" item.track
  let played_at ← getKey "played_at" item.played_at
  let track_id ← getKey "id" track.id
  let track_name ← getKey "name" track.name
  let a0 ← headIdx track.artists
  let artist_id ← getKey "id" a0.id
  let artist_name ← getKey "name" a0.name
  let album ← getKey "album" track.album
  let album_name ← getKey "name" album.name
  let album_id ← getKey "id" album.id
  let track_url ← getKey "spotify" track.external_urls_spotify
  let duration_ms ← getKey "duration_ms" track.duration_ms
  pure { played_at, track_id, track_name, artist_id, artist_name, album_name, album_id,
         track_url, duration_ms, popularity := track.popularity.getD 0,
         explicit := track.explicit.getD false }

/-- Embeds `_fetch_recently_played` (coordinator.py). The argument is the
`items` list of the `current_user_recently_played(limit=20)` response. -/
def fetch_recently_played (r : Except FetchError (List PlayHistoryItem)) :
    Except FetchError RecentlyPlayedRecord := do
  let items ← r
  let tracks ← mapE normalizeRecentItem items
  pure { count := tracks.length, tracks,
         last_played := tracks.head?.map (·.played_at) }

/-- Normalization of one followed artist (the inner loop body of
`_fetch_followed_artists`). -/
def normalizeFollowedArtist (a : ArtistObj) : Except FetchError FollowedArtist := do
  let id ← getKey "id" a.id
  let name ← getKey "name" a.name
  let url ← getKey "spotify" a.external_urls_spotify
  pure { id, name, url, image := a.images.head?,
         genres := a.genres.getD [], popularity := a.popularity.getD 0 }

/-- The `while True` pagination loop of `_fetch_followed_artists`: each list
element is the outcome of one `current_user_followed_artists` call; the loop
continues while the page's `next` field is truthy (reading `cursors.after`
for the next call). An exhausted environment models a call with no response. -/
def fetchFollowedLoop : List (Except FetchError ArtistsPage) → Except FetchError (List FollowedArtist)
  | [] => .error (.keyError "missing page")
  | r :: rest => do
    let p ← r
    let items ← mapE normalizeFollowedArtist p.items
    if truthyStr p.next then do
      let _ ← getKey "after" p.cursorAfter
      let more ← fetchFollowedLoop rest
      pure (items ++ more)
    else
      pure items

/-- Embeds `_fetch_followed_artists` (coordinator.py): paginate through all
pages, then build the record with the display list truncated to 20. -/
def fetch_followed_artists (pages : List (Except FetchError ArtistsPage)) :
    Except FetchError FollowedArtistsRecord := do
  let results ← fetchFollowedLoop pages
  pure { count := results.length, artists := results.take 20, all_artists := results }

/-! ### Top stats -/

/-- One ranked entry of a top-artists record. -/
structure TopArtistEntry where
  id : String
  name : String
  url : String
  rank : Nat
  genres : List String
  popularity : Nat
deriving Repr, DecidableEq

/-- One ranked entry of a top-tracks record. -/
structure TopTrackEntry where
  id : String
  name : String
  artist_name : String
  artist_id : String
  album_name : String
  url : String
  rank : Nat
  popularity : Nat
deriving Repr, DecidableEq

/-- A `top_artists_*` bucket record. -/
structure TopStatsArtistsRecord where
  count : Nat
  period : String
  artists : List TopArtistEntry
deriving Repr, DecidableEq

/-- A `top_tracks_*` bucket record. -/
structure TopStatsTracksRecord where
  count : Nat
  period : String
  tracks : List TopTrackEntry
deriving Repr, DecidableEq

/-- The six records produced together by `_fetch_top_stats`. -/
structure TopStatsGroup where
  top_artists_4weeks : TopStatsArtistsRecord
  top_artists_6months : TopStatsArtistsRecord
  top_artists_alltime : TopStatsArtistsRecord
  top_tracks_4weeks : TopStatsTracksRecord
  top_tracks_6months : TopStatsTracksRecord
  top_tracks_alltime : TopStatsTracksRecord
deriving Repr, DecidableEq

/-- The artist comprehension body of `_fetch_top_stats`, at `enumerate` index
`idx`: `rank` is always `idx + 1`. -/
def normalizeTopArtist (idx : Nat) (a : ArtistObj) : Except FetchError TopArtistEntry := do
  let id ← getKey "id" a.id
  let name ← getKey "name" a.name
  let url ← getKey "spotify" a.external_urls_spotify
  pure { id, name, url, rank := idx + 1,
         genres := a.genres.getD [], popularity := a.popularity.getD 0 }

/-- The track comprehension body of `_fetch_top_stats`, at `enumerate` index
`idx`: `rank` is always `idx + 1`. -/
def normalizeTopTrack (idx : Nat) (t : TrackObj) : Except FetchError TopTrackEntry := do
  let id ← getKey "id" t.id
  let name ← getKey "name" t.name
  let a0 ← headIdx t.artists
  let artist_name ← getKey "name" a0.name
  let artist_id ← getKey "id" a0.id
  let album ← getKey "album" t.album
  let album_name ← getKey "name" album.name
  let url ← getKey "spotify" t.external_urls_spotify
  pure { id, name, artist_name, artist_id, album_name, url, rank := idx + 1,
         popularity := t.popularity.getD 0 }

/-- The `[... for idx, artist in enumerate(artists["items"])]` comprehension. -/
def rankTopArtists (items : List ArtistObj) : Except FetchError (List TopArtistEntry) :=
  mapIdxE normalizeTopArtist 0 items

/-- The `[... for idx, track in enumerate(tracks["items"])]` comprehension. -/
def rankTopTracks (items : List TrackObj) : Except FetchError (List TopTrackEntry) :=
  mapIdxE normalizeTopTrack 0 items

/-- One `data[f"top_artists_{period}"] = ...` assignment of `_fetch_top_stats`. -/
def mkTopArtistsRecord (time_range : String) (items : List ArtistObj) :
    Except FetchError TopStatsArtistsRecord := do
  let artists ← rankTopArtists items
  pure { count := items.length, period := time_range, artists }

/-- One `data[f"top_tracks_{period}"] = ...` assignment of `_fetch_top_stats`. -/
def mkTopTracksRecord (time_range : String) (items : List TrackObj) :
    Except FetchError TopStatsTracksRecord := do
  let tracks ← rankTopTracks items
  pure { count := items.length, period := time_range, tracks }

/-- Embeds `_fetch_top_stats` (coordinator.py): top artists for the short,
medium and long ranges, then top tracks for the same three ranges, in the
source's loop order. The six arguments are the `items` lists of the six
`current_user_top_artists` / `current_user_top_tracks` calls. -/
def fetch_top_stats (aS aM aL : Except FetchError (List ArtistObj))
    (tS tM tL : Except FetchError (List TrackObj)) : Except FetchError TopStatsGroup := do
  let iS ← aS
  let rS ← mkTopArtistsRecord TIME_RANGE_SHORT iS
  let iM ← aM
  let rM ← mkTopArtistsRecord TIME_RANGE_MEDIUM iM
  let iL ← aL
  let rL ← mkTopArtistsRecord TIME_RANGE_LONG iL
  let jS ← tS
  let sS ← mkTopTracksRecord TIME_RANGE_SHORT jS
  let jM ← tM
  let sM ← mkTopTracksRecord TIME_RANGE_MEDIUM jM
  let jL ← tL
  let sL ← mkTopTracksRecord TIME_RANGE_LONG jL
  pure { top_artists_4weeks := rS, top_artists_6months := rM, top_artists_alltime := rL,
         top_tracks_4weeks := sS, top_tracks_6months := sM, top_tracks_alltime := sL }

/-! ### Playlists -/

/-- A playlist dictionary as returned by the remote service (the owner
object is collapsed into `owner_display_name` / `owner_id`; `tracks_total`
collapses `playlist["tracks"]["total"]`). -/
structure PlaylistObj where
  id : Option String
  name : Option String
  external_urls_spotify : Option String
  uri : Option String
  tracks_total : Option Nat
  description : Option String
  public : Option Bool
  collaborative : Option Bool
  owner_display_name : Option String
  owner_id : Option String
deriving Repr, DecidableEq

/-- One normalized playlist entry. -/
structure PlaylistEntry where
  id : String
  name : String
  url : String
  uri : String
  tracks_total : Nat
  description : String
  public : Bool
  collaborative : Bool
  owner : String
  owner_id : String
deriving Repr, DecidableEq

/-- The playlists bucket record. -/
structure PlaylistsRecord where
  count : Nat
  playlists : List PlaylistEntry
  all_playlists : List PlaylistEntry
deriving Repr, DecidableEq

/-- One page of the `current_user_playlists` response. -/
structure PlaylistsPage where
  items : List PlaylistObj
  next : Option String
deriving Repr, DecidableEq

/-- The per-playlist loop body of `_fetch_user_playlists`: every field is a
direct access except the `.get(...)` ones. -/
def normalizePlaylist (p : PlaylistObj) : Except FetchError PlaylistEntry := do
  let id ← getKey "id" p.id
  let name ← getKey "name" p.name
  let url ← getKey "spotify" p.external_urls_spotify
  let uri ← getKey "uri" p.uri
  let tracks_total ← getKey "total" p.tracks_total
  let owner ← getKey "display_name" p.owner_display_name
  let owner_id ← getKey "id" p.owner_id
  pure { id, name, url, uri, tracks_total,
         description := p.description.getD "", public := p.public.getD false,
         collaborative := p.collaborative.getD false, owner, owner_id }

/-- The `while results` pagination loop of `_fetch_user_playlists`; the loop
requests the next page (`self.sp.next`) while the page's `next` is truthy. -/
def fetchPlaylistsLoop : List (Except FetchError PlaylistsPage) → Except FetchError (List PlaylistEntry)
  | [] => .error (.keyError "missing page")
  | r :: rest => do
    let p ← r
    let items ← mapE normalizePlaylist p.items
    if truthyStr p.next then do
      let more ← fetchPlaylistsLoop rest
      pure (items ++ more)
    else
      pure items

/-- Embeds `_fetch_user_playlists` (coordinator.py). The whole body is
wrapped in `try/except Exception`, so ANY failure — a remote-API error of
any status (401 included) or a missing field — is swallowed and the fetcher
returns the empty fallback record `{"count": 0, "playlists": [], "all_playlists": []}`. -/
def fetch_user_playlists (pages : List (Except FetchError PlaylistsPage)) : PlaylistsRecord :=
  match (do
      let playlists ← fetchPlaylistsLoop pages
      pure { count := playlists.length, playlists := playlists.take 20,
             all_playlists := playlists } : Except FetchError PlaylistsRecord) with
  | .ok r => r
  | .error _ => { count := 0, playlists := [], all_playlists := [] }

/-! ### Saved tracks / saved albums -/

/-- One item of a `current_user_saved_tracks` response (`track` is read with
`.get`, so its absence is not an error). -/
structure SavedTrackItem where
  added_at : Option String
  track : Option TrackObj
deriving Repr, DecidableEq

/-- One item of a `current_user_saved_albums` response. -/
structure SavedAlbumItem where
  added_at : Option String
  album : Option AlbumObj
deriving Repr, DecidableEq

/-- A page of a saved-library response: the `total` pagination field plus the
`items` list. -/
structure SavedPage (α : Type) where
  total : Option Nat
  items : List α
deriving Repr, DecidableEq

/-- One normalized saved track. -/
structure SavedTrackEntry where
  id : String
  name : String
  artist_name : String
  artist_id : String
  album_name : String
  album_id : String
  url : String
  uri : String
  duration_ms : Nat
  popularity : Nat
  added_at : String
deriving Repr, DecidableEq

/-- One normalized saved album. -/
structure SavedAlbumEntry where
  id : String
  name : String
  artist_name : String
  artist_id : String
  url : String
  uri : String
  total_tracks : Nat
  release_date : String
  added_at : String
deriving Repr, DecidableEq

/-- The saved-tracks bucket record (only the truncated display list is kept). -/
structure SavedTracksRecord where
  count : Nat
  tracks : List SavedTrackEntry
deriving Repr, DecidableEq

/-- The saved-albums bucket record. -/
structure SavedAlbumsRecord where
  count : Nat
  albums : List SavedAlbumEntry
deriving Repr, DecidableEq

/-- The per-item loop body of `_fetch_saved_tracks`: skip (return `none`)
when `track` is absent, when a required field is falsy (`id` missing or
empty, `artists` missing or empty, `album` missing), or when the guarded
`try` block hits a missing field — the item never aborts the fetch. -/
def normalizeSavedTrack (item : SavedTrackItem) : Option SavedTrackEntry :=
  match item.track with
  | none => none
  | some track =>
    if ¬ truthyStr track.id ∨ track.artists.isEmpty ∨ track.album.isNone then none
    else
      match (do
          let id ← getKey "id" track.id
          let a0 ← headIdx track.artists
          let artist_name ← getKey "name" a0.name
          let artist_id ← getKey "id" a0.id
          let album ← getKey "album" track.album
          let album_name ← getKey "name" album.name
          let album_id ← getKey "id" album.id
          let url ← getKey "spotify" track.external_urls_spotify
          pure { id, name := track.name.getD "Unknown Track", artist_name, artist_id,
                 album_name, album_id, url, uri := track.uri.getD "",
                 duration_ms := track.duration_ms.getD 0,
                 popularity := track.popularity.getD 0,
                 added_at := item.added_at.getD "" } : Except FetchError SavedTrackEntry) with
      | .ok e => some e
      | .error _ => none

/-- The full normalized saved-tracks list, before display truncation. -/
def savedTracksFull (items : List SavedTrackItem) : List SavedTrackEntry :=
  items.filterMap normalizeSavedTrack

/-- Embeds `_fetch_saved_tracks` (coordinator.py): a `limit=1` probe call
supplies the remote pagination `total`, a `limit=50` call supplies the items;
the whole body is wrapped in `try/except Exception`, so ANY remote-API error
(401 included) yields the empty fallback record `{"count": 0, "tracks": []}`. -/
def fetch_saved_tracks (probe page : Except FetchError (SavedPage SavedTrackItem)) :
    SavedTracksRecord :=
  match (do
      let r1 ← probe
      let total_count ← getKey "total" r1.total
      let r2 ← page
      pure { count := total_count,
             tracks := (savedTracksFull r2.items).take 20 } : Except FetchError SavedTracksRecord) with
  | .ok r => r
  | .error _ => { count := 0, tracks := [] }

/-- The per-item loop body of `_fetch_saved_albums`: skip (return `none`)
when `album` is absent, when `id` is falsy or `artists` is missing/empty, or
when the guarded `try` block hits a missing field. -/
def normalizeSavedAlbum (item : SavedAlbumItem) : Option SavedAlbumEntry :=
  match item.album with
  | none => none
  | some album =>
    if ¬ truthyStr album.id ∨ album.artists.isEmpty then none
    else
      match (do
          let id ← getKey "id" album.id
          let a0 ← headIdx album.artists
          let artist_name ← getKey "name" a0.name
          let artist_id ← getKey "id" a0.id
          let url ← getKey "spotify" album.external_urls_spotify
          pure { id, name := album.name.getD "Unknown Album", artist_name, artist_id,
                 url, uri := album.uri.getD "",
                 total_tracks := album.total_tracks.getD 0,
                 release_date := album.release_date.getD "",
                 added_at := item.added_at.getD "" } : Except FetchError SavedAlbumEntry) with
      | .ok e => some e
      | .error _ => none

/-- The full normalized saved-albums list, before display truncation. -/
def savedAlbumsFull (items : List SavedAlbumItem) : List SavedAlbumEntry :=
  items.filterMap normalizeSavedAlbum

/-- Embeds `_fetch_saved_albums` (coordinator.py), same shape as
`fetch_saved_tracks`: any failure yields `{"count": 0, "albums": []}`. -/
def fetch_saved_albums (probe page : Except FetchError (SavedPage SavedAlbumItem)) :
    SavedAlbumsRecord :=
  match (do
      let r1 ← probe
      let total_count ← getKey "total" r1.total
      let r2 ← page
      pure { count := total_count,
             albums := (savedAlbumsFull r2.items).take 20 } : Except FetchError SavedAlbumsRecord) with
  | .ok r => r
  | .error _ => { count := 0, albums := [] }

/-! ### Token acquisition and cycle-level error classification -/

/-- The two distinct ways the Session Provider (`OAuth2Session`) can fail:
consent revocation / unrecoverable credential error, or a merely transient
network/backend failure. The Python `except Exception` clause of
`_async_ensure_token_valid` does not distinguish them. -/
inductive SessionError where
  | consentRevoked
  | transientNetwork
deriving Repr, DecidableEq

/-- The token dictionary returned by `self.session.token`. In Home Assistant
`CONF_ACCESS_TOKEN` is the string `"access_token"`, so the `elif` branch of
`_async_ensure_token_valid` probes the same key as the `if` branch; the
dictionary is modelled with that single key. -/
structure TokenDict where
  access_token : Option String
deriving Repr, DecidableEq

/-- The host-visible outcome of a failed refresh cycle:
`ConfigEntryAuthFailed` (re-authorization required) or `UpdateFailed`
carrying the underlying cause. -/
inductive CycleError where
  | authRequired
  | updateFailed (cause : FetchError)
deriving Repr, DecidableEq

/-- Embeds `_async_ensure_token_valid` (coordinator.py): the whole body is
wrapped in `try/except Exception: raise ConfigEntryAuthFailed from err`, so
EVERY failure of the Session Provider — consent revocation and transient
network failure alike — becomes `authRequired`; a token dictionary without
an `access_token` key also raises `ConfigEntryAuthFailed`. -/
def async_ensure_token_valid (sess : Except SessionError TokenDict) :
    Except CycleError String :=
  match sess with
  | .error _ => .error .authRequired
  | .ok token =>
    match token.access_token with
    | some t => .ok t
    | none => .error .authRequired

/-- The `except spotipy.exceptions.SpotifyException` / `except Exception`
classification at the end of `_async_update_data`: HTTP 401 becomes
`ConfigEntryAuthFailed`, every other error becomes `UpdateFailed` carrying
the cause. -/
def classifyFetchError : FetchError → CycleError
  | .api s m => if s = 401 then .authRequired else .updateFailed (.api s m)
  | .keyError k => .updateFailed (.keyError k)

/-- Whether a fetch error carries the authorization-failure status 401. -/
def is_auth_error : FetchError → Bool
  | .api s _ => s == 401
  | .keyError _ => false

/-! ### The refresh cycle -/

/-- The merged data dictionary built by one refresh cycle (`data` in
`_async_update_data`); `Option` fields model `self.data.get(key)` carrying
forward a possibly-absent previous value. -/
structure Snapshot where
  now_playing : Option NowPlayingRecord
  recently_played : Option RecentlyPlayedRecord
  followed_artists : Option FollowedArtistsRecord
  top_artists_4weeks : Option TopStatsArtistsRecord
  top_artists_6months : Option TopStatsArtistsRecord
  top_artists_alltime : Option TopStatsArtistsRecord
  top_tracks_4weeks : Option TopStatsTracksRecord
  top_tracks_6months : Option TopStatsTracksRecord
  top_tracks_alltime : Option TopStatsTracksRecord
  user_playlists : Option PlaylistsRecord
  saved_tracks : Option SavedTracksRecord
  saved_albums : Option SavedAlbumsRecord
deriving Repr, DecidableEq

/-- The coordinator's mutable state relevant to a refresh cycle:
`_last_followed_update`, `_last_top_stats_update`, and the committed data
(`self.data`, the snapshot of the previous successful cycle). -/
structure CoordState where
  last_followed_update : Option Int
  last_top_stats_update : Option Int
  data : Snapshot
deriving Repr, DecidableEq

/-- Which staleness-gated buckets issued remote calls during a cycle. -/
structure CycleCalls where
  fetched_followed : Bool
  fetched_top_stats : Bool
deriving Repr, DecidableEq

/-- Embeds `_should_update_followed` (coordinator.py): due when
`_last_followed_update` is unset or at least `UPDATE_INTERVAL_FOLLOWED`
seconds have elapsed. -/
def should_update_followed (last : Option Int) (now : Int) : Bool :=
  match last with
  | none => true
  | some t => UPDATE_INTERVAL_FOLLOWED ≤ now - t

/-- Embeds `_should_update_top_stats` (coordinator.py). -/
def should_update_top_stats (last : Option Int) (now : Int) : Bool :=
  match last with
  | none => true
  | some t => UPDATE_INTERVAL_TOP_STATS ≤ now - t

/-- The remote responses available to one refresh cycle, one field per
endpoint touched by `_async_update_data`. -/
structure RemoteEnv where
  now_playing : Except FetchError (Option PlaybackState)
  recently_played : Except FetchError (List PlayHistoryItem)
  followed : List (Except FetchError ArtistsPage)
  top_artists_short : Except FetchError (List ArtistObj)
  top_artists_medium : Except FetchError (List ArtistObj)
  top_artists_long : Except FetchError (List ArtistObj)
  top_tracks_short : Except FetchError (List TrackObj)
  top_tracks_medium : Except FetchError (List TrackObj)
  top_tracks_long : Except FetchError (List TrackObj)
  playlists : List (Except FetchError PlaylistsPage)
  saved_tracks_probe : Except FetchError (SavedPage SavedTrackItem)
  saved_tracks_page : Except FetchError (SavedPage SavedTrackItem)
  saved_albums_probe : Except FetchError (SavedPage SavedAlbumItem)
  saved_albums_page : Except FetchError (SavedPage SavedAlbumItem)

/-- The conditional followed-artists step of `_async_update_data`:
fetch when due, otherwise carry forward `self.data.get(SENSOR_FOLLOWED_ARTISTS)`. -/
def followed_step (st : CoordState) (now : Int) (env : RemoteEnv) :
    Except FetchError (Option FollowedArtistsRecord) :=
  if should_update_followed st.last_followed_update now then
    (fetch_followed_artists env.followed).map some
  else
    .ok st.data.followed_artists

/-- The conditional top-stats step of `_async_update_data`: fetch the whole
group when due (`.ok (some g)`), otherwise signal carry-forward (`.ok none`). -/
def top_step (st : CoordState) (now : Int) (env : RemoteEnv) :
    Except FetchError (Option TopStatsGroup) :=
  if should_update_top_stats st.last_top_stats_update now then
    (fetch_top_stats env.top_artists_short env.top_artists_medium env.top_artists_long
      env.top_tracks_short env.top_tracks_medium env.top_tracks_long).map some
  else
    .ok none

/-- The second `try` block of `_async_update_data` (the bucket-fetch phase),
in the source's sequencing: now-playing, recently-played, followed-artists
(gated), top-stats (gated), playlists, saved tracks, saved albums. Returns
the phase outcome together with the values `_last_followed_update` and
`_last_top_stats_update` hold AFTER the phase — the Python assignments to
those attributes happen as soon as the corresponding fetch succeeds, so they
persist even when a later fetch aborts the cycle — and the record of which
gated buckets issued remote calls. -/
def update_data_buckets (st : CoordState) (now : Int) (env : RemoteEnv) :
    Except FetchError Snapshot × Option Int × Option Int × CycleCalls :=
  let followedDue := should_update_followed st.last_followed_update now
  let topDue := should_update_top_stats st.last_top_stats_update now
  match fetch_now_playing env.now_playing with
  | .error e => (.error e, st.last_followed_update, st.last_top_stats_update, ⟨false, false⟩)
  | .ok np =>
  match fetch_recently_played env.recently_played with
  | .error e => (.error e, st.last_followed_update, st.last_top_stats_update, ⟨false, false⟩)
  | .ok rp =>
  match followed_step st now env with
  | .error e => (.error e, st.last_followed_update, st.last_top_stats_update, ⟨followedDue, false⟩)
  | .ok fa =>
  let lastF := if followedDue then some now else st.last_followed_update
  match top_step st now env with
  | .error e => (.error e, lastF, st.last_top_stats_update, ⟨followedDue, topDue⟩)
  | .ok tg =>
  let lastT := if topDue then some now else st.last_top_stats_update
  let pl := fetch_user_playlists env.playlists
  let stk := fetch_saved_tracks env.saved_tracks_probe env.saved_tracks_page
  let sal := fetch_saved_albums env.saved_albums_probe env.saved_albums_page
  let base : Snapshot :=
    { now_playing := some np
      recently_played := some rp
      followed_artists := fa
      top_artists_4weeks := st.data.top_artists_4weeks
      top_artists_6months := st.data.top_artists_6months
      top_artists_alltime := st.data.top_artists_alltime
      top_tracks_4weeks := st.data.top_tracks_4weeks
      top_tracks_6months := st.data.top_tracks_6months
      top_tracks_alltime := st.data.top_tracks_alltime
      user_playlists := some pl
      saved_tracks := some stk
      saved_albums := some sal }
  let snap :=
    match tg with
    | some g =>
      { base with
        top_artists_4weeks := some g.top_artists_4weeks
        top_artists_6months := some g.top_artists_6months
        top_artists_alltime := some g.top_artists_alltime
        top_tracks_4weeks := some g.top_tracks_4weeks
        top_tracks_6months := some g.top_tracks_6months
        top_tracks_alltime := some g.top_tracks_alltime }
    | none => base
  (.ok snap, lastF, lastT, ⟨followedDue, topDue⟩)

/-- Embeds one full `_async_update_data` cycle (coordinator.py), including
the token phase and the final error classification, together with the
`DataUpdateCoordinator` commit rule: on success the returned dictionary
becomes `self.data`; on failure `self.data` is left at the previously
committed snapshot (while the `_last_*_update` mutations made before the
failure persist). -/
def async_update_data (st : CoordState) (now : Int)
    (sess : Except SessionError TokenDict) (env : RemoteEnv) :
    Except CycleError Snapshot × CoordState × CycleCalls :=
  match async_ensure_token_valid sess with
  | .error e => (.error e, st, ⟨false, false⟩)
  | .ok _ =>
    match update_data_buckets st now env with
    | (.ok snap, lastF, lastT, cs) => (.ok snap, ⟨lastF, lastT, snap⟩, cs)
    | (.error e, lastF, lastT, cs) => (.error (classifyFetchError e), ⟨lastF, lastT, st.data⟩, cs)

/-! ### Interval reconfiguration (`async_set_update_interval`, services.py) -/

/-- The coordinator attributes touched by `async_set_update_interval`, plus a
counter of `async_request_refresh()` invocations. -/
structure IntervalState where
  now_playing_interval : Nat
  recently_played_interval : Nat
  update_interval : Nat
  refresh_requests : Nat
deriving Repr, DecidableEq

/-- Embeds `async_set_update_interval` (coordinator.py): store each provided
interval, recompute `update_interval` as the minimum of the two stored
intervals, and trigger exactly one immediate refresh request. -/
def async_set_update_interval (st : IntervalState)
    (now_playing recently_played : Option Nat) : IntervalState :=
  let st1 :=
    match now_playing with
    | some v => { st with now_playing_interval := v }
    | none => st
  let st2 :=
    match recently_played with
    | some v => { st1 with recently_played_interval := v }
    | none => st1
  { st2 with
    update_interval := min st2.now_playing_interval st2.recently_played_interval,
    refresh_requests := st2.refresh_requests + 1 }

/-- Validation of one optional interval by `vol.Range(min=lo, max=hi)`. -/
def in_range (lo hi : Nat) : Option Nat → Bool
  | none => true
  | some v => decide (lo ≤ v) && decide (v ≤ hi)

/-- Embeds `SET_UPDATE_INTERVAL_SCHEMA` (services.py): now-playing interval
in [30, 300], recently-played interval in [300, 3600], both optional. -/
def set_update_interval_schema_valid (now_playing recently_played : Option Nat) : Bool :=
  in_range 30 300 now_playing && in_range 300 3600 recently_played

/-! ### Recently-played CSV export (`export_recently_played_csv`, services.py) -/

/-- One CSV row written by `export_recently_played_csv`, in the fixed column
schema (`username` first, then the track columns). The model fixes
`include_audio_features` at its schema default `False`, so the audio-feature
columns are absent. -/
structure ExportRow where
  username : String
  played_at : String
  track_id : String
  track_name : String
  artist_id : String
  artist_name : String
  album_name : String
  album_id : String
  duration_ms : Nat
  popularity : Nat
  explicit : Bool
  track_url : String
deriving Repr, DecidableEq

/-- The `row = {"username": username}; row.update({col: track.get(col, "") ...})`
body of the writer loop. -/
def toExportRow (username : String) (t : PlayedTrack) : ExportRow :=
  { username, played_at := t.played_at, track_id := t.track_id,
    track_name := t.track_name, artist_id := t.artist_id,
    artist_name := t.artist_name, album_name := t.album_name,
    album_id := t.album_id, duration_ms := t.duration_ms,
    popularity := t.popularity, explicit := t.explicit,
    track_url := t.track_url }

/-- Embeds `export_recently_played_csv` (services.py) acting on the CSV file
at the destination path, modelled as `Option (List ExportRow)` (`none` when
the file does not exist; header rows are not modelled since `DictReader`
never yields them). When appending to an existing file the existing rows'
`played_at` values are collected and every source track whose `played_at`
already appears is filtered out; if no new tracks remain the file is left
untouched; otherwise the new rows are appended (append mode, existing file)
or written fresh (otherwise). Source tracks are the cached
`recently_played` bucket's `tracks`; an empty cache aborts the export. -/
def export_recently_played_csv (username : String) (tracks : List PlayedTrack)
    (append : Bool) (file : Option (List ExportRow)) : Option (List ExportRow) :=
  if tracks.isEmpty then file
  else
    let existing_timestamps : List String :=
      if append && file.isSome then (file.getD []).map (·.played_at) else []
    let new_tracks := tracks.filter (fun t => !(existing_timestamps.contains t.played_at))
    if new_tracks.isEmpty then file
    else
      let rows := new_tracks.map (toExportRow username)
      if append && file.isSome then some (file.getD [] ++ rows) else some rows

/-! ### Proof helpers and concrete fixtures -/

deriving instance DecidableEq for Except

/-- Whether a refresh-cycle outcome committed a snapshot. -/
def cycleSucceeded {α : Type} : Except CycleError α → Bool
  | .ok _ => true
  | .error _ => false

/-- A snapshot with every bucket absent (the coordinator before its first
successful refresh). -/
def emptySnapshot : Snapshot :=
  { now_playing := none, recently_played := none, followed_artists := none,
    top_artists_4weeks := none, top_artists_6months := none, top_artists_alltime := none,
    top_tracks_4weeks := none, top_tracks_6months := none, top_tracks_alltime := none,
    user_playlists := none, saved_tracks := none, saved_albums := none }

/-- Coordinator state before the first refresh. -/
def st0 : CoordState := ⟨none, none, emptySnapshot⟩

/-- A Session Provider that hands out a valid token. -/
def tokOk : Except SessionError TokenDict := .ok ⟨some "token"⟩

/-- A remote environment where every endpoint answers successfully (with
empty collections). -/
def envOk : RemoteEnv :=
  { now_playing := .ok none
    recently_played := .ok []
    followed := [.ok ⟨[], none, none⟩]
    top_artists_short := .ok []
    top_artists_medium := .ok []
    top_artists_long := .ok []
    top_tracks_short := .ok []
    top_tracks_medium := .ok []
    top_tracks_long := .ok []
    playlists := [.ok ⟨[], none⟩]
    saved_tracks_probe := .ok ⟨some 0, []⟩
    saved_tracks_page := .ok ⟨some 0, []⟩
    saved_albums_probe := .ok ⟨some 0, []⟩
    saved_albums_page := .ok ⟨some 0, []⟩ }

/-- The snapshot `async_update_data st0 0 tokOk envOk` commits. -/
def snapW : Snapshot :=
  { now_playing := some .idle
    recently_played := some { count := 0, tracks := [], last_played := none }
    followed_artists := some { count := 0, artists := [], all_artists := [] }
    top_artists_4weeks := some { count := 0, period := TIME_RANGE_SHORT, artists := [] }
    top_artists_6months := some { count := 0, period := TIME_RANGE_MEDIUM, artists := [] }
    top_artists_alltime := some { count := 0, period := TIME_RANGE_LONG, artists := [] }
    top_tracks_4weeks := some { count := 0, period := TIME_RANGE_SHORT, tracks := [] }
    top_tracks_6months := some { count := 0, period := TIME_RANGE_MEDIUM, tracks := [] }
    top_tracks_alltime := some { count := 0, period := TIME_RANGE_LONG, tracks := [] }
    user_playlists := some { count := 0, playlists := [], all_playlists := [] }
    saved_tracks := some { count := 0, tracks := [] }
    saved_albums := some { count := 0, albums := [] } }

/-- A previously committed snapshot with marker records in the playlists and
saved-library buckets (their `count` fields distinguish them from the empty
fallback records). -/
def prevSnap : Snapshot :=
  { emptySnapshot with
    user_playlists := some { count := 7, playlists := [], all_playlists := [] }
    saved_tracks := some { count := 9, tracks := [] }
    saved_albums := some { count := 11, albums := [] } }

/-- Coordinator state holding `prevSnap`, with both staleness gates freshly
satisfied at time 0 (so a cycle at time 0 skips both gated buckets). -/
def stPrev : CoordState := ⟨some 0, some 0, prevSnap⟩

/-- The happy environment except that the playlists call fails with HTTP 401. -/
def envPl401 : RemoteEnv := { envOk with playlists := [.error (.api 401 "Unauthorized")] }

/-- The happy environment except that the saved-tracks probe call fails with
HTTP 500. -/
def envSt500 : RemoteEnv := { envOk with saved_tracks_probe := .error (.api 500 "Server error") }

/-- The happy environment except that the now-playing call fails with HTTP 401. -/
def envNp401 : RemoteEnv := { envOk with now_playing := .error (.api 401 "Unauthorized") }

/-- The happy environment except that the now-playing call fails with HTTP 502. -/
def envNp502 : RemoteEnv := { envOk with now_playing := .error (.api 502 "Bad gateway") }

/-- A fully populated remote artist object. -/
def artistObjW : ArtistObj :=
  { id := some "a1", name := some "Artist", external_urls_spotify := some "https://x/a1",
    images := [], genres := none, popularity := none }

/-- A fully populated remote album object. -/
def albumObjW : AlbumObj :=
  { id := some "al1", name := some "Album", images := [], artists := [artistObjW],
    external_urls_spotify := some "https://x/al1", uri := some "spotify:album:al1",
    total_tracks := some 10, release_date := some "2024-01-01" }

/-- A fully populated remote track object. -/
def trackOkW : TrackObj :=
  { id := some "t1", name := some "Song", artists := [artistObjW], album := some albumObjW,
    external_urls_spotify := some "https://x/t1", uri := some "spotify:track:t1",
    duration_ms := some 180000, popularity := some 50, explicit := some false }

/-- A remote track object with its `album` field missing (a deleted track). -/
def trackNoAlbum : TrackObj := { trackOkW with album := none }

/-- A normal recently-played history item. -/
def goodRecentItem : PlayHistoryItem := ⟨some "2024-01-01T00:00:00Z", some trackOkW⟩

/-- A recently-played history item whose track lacks an album. -/
def badRecentItem : PlayHistoryItem := ⟨some "2024-01-01T00:00:01Z", some trackNoAlbum⟩

/-- A normal saved-tracks item. -/
def goodSavedItem : SavedTrackItem := ⟨some "2024-01-02T00:00:00Z", some trackOkW⟩

/-- A saved-tracks item whose track lacks an album. -/
def badSavedItem : SavedTrackItem := ⟨some "2024-01-03T00:00:00Z", some trackNoAlbum⟩

/-- A remote album object with an empty `artists` list. -/
def albNoArtists : AlbumObj := { albumObjW with artists := [] }

/-- A normal saved-albums item. -/
def goodSavedAlbumItem : SavedAlbumItem := ⟨some "2024-01-04T00:00:00Z", some albumObjW⟩

/-- A saved-albums item whose album has no artists. -/
def badSavedAlbumItem : SavedAlbumItem := ⟨some "2024-01-05T00:00:00Z", some albNoArtists⟩

/-- The followed-artist entry normalized from `artistObjW`. -/
def followedArtistW : FollowedArtist :=
  { id := "a1", name := "Artist", url := "https://x/a1", image := none,
    genres := [], popularity := 0 }

/-- The followed-artists record fetched from a single page holding `artistObjW`. -/
def faRecW : FollowedArtistsRecord :=
  { count := 1, artists := [followedArtistW], all_artists := [followedArtistW] }

/-- The top-stats group fetched when the short-range top-artists call returns
`[artistObjW]` and the other five calls return empty lists. -/
def topGroupW : TopStatsGroup :=
  { top_artists_4weeks :=
      { count := 1, period := TIME_RANGE_SHORT,
        artists := [{ id := "a1", name := "Artist", url := "https://x/a1", rank := 1,
                      genres := [], popularity := 0 }] }
    top_artists_6months := { count := 0, period := TIME_RANGE_MEDIUM, artists := [] }
    top_artists_alltime := { count := 0, period := TIME_RANGE_LONG, artists := [] }
    top_tracks_4weeks := { count := 0, period := TIME_RANGE_SHORT, tracks := [] }
    top_tracks_6months := { count := 0, period := TIME_RANGE_MEDIUM, tracks := [] }
    top_tracks_alltime := { count := 0, period := TIME_RANGE_LONG, tracks := [] } }

/-! ### Claim theorems -/

/-- Reduction of `Except` bind on a success value. -/
@[simp] lemma exceptOkBind {ε α β : Type} (a : α) (f : α → Except ε β) :
    (Except.ok a >>= f : Except ε β) = f a := rfl

/-- Reduction of `Except` bind on an error value. -/
@[simp] lemma exceptErrorBind {ε α β : Type} (e : ε) (f : α → Except ε β) :
    (Except.error e >>= f : Except ε β) = Except.error e := rfl

/-- An indexed normalization loop whose body always stamps `rank = idx + 1`
outputs, on success, a list whose `i`-th element has rank `start + i + 1`. -/
lemma mapIdxE_rank {α β : Type} (f : Nat → α → Except FetchError β) (rk : β → Nat)
    (hf : ∀ idx a e, f idx a = .ok e → rk e = idx + 1) :
    ∀ (n : Nat) (items : List α) (l : List β),
      mapIdxE f n items = .ok l →
      ∀ i (h : i < l.length), rk (l.get ⟨i, h⟩) = n + i + 1 := by
  intro n items
  induction items generalizing n with
  | nil =>
    intro l hl i hi
    simp only [mapIdxE, Except.ok.injEq] at hl
    subst hl
    simp at hi
  | cons x xs ih =>
    intro l hl i hi
    rw [mapIdxE] at hl
    cases hx : f n x with
    | error e => rw [hx] at hl; simp at hl
    | ok y =>
      rw [hx] at hl
      simp only [exceptOkBind] at hl
      cases hrest : mapIdxE f (n + 1) xs with
      | error e => rw [hrest] at hl; simp at hl
      | ok ys =>
        rw [hrest] at hl
        simp only [exceptOkBind, pure, Except.pure, Except.ok.injEq] at hl
        subst hl
        cases i with
        | zero => simpa using hf n x y hx
        | succ j =>
          have hj : j < ys.length := by simpa using hi
          have hrec := ih (n + 1) ys hrest j hj
          have harith : n + 1 + j + 1 = n + (j + 1) + 1 := by omega
          simpa [List.get, harith] using hrec

/-- A successfully normalized top artist carries `rank = idx + 1`. -/
lemma normalizeTopArtist_rank (idx : Nat) (a : ArtistObj) (e : TopArtistEntry)
    (h : normalizeTopArtist idx a = .ok e) : e.rank = idx + 1 := by
  simp only [normalizeTopArtist] at h
  cases hid : a.id with
  | none => rw [hid] at h; simp [getKey] at h
  | some v1 =>
    rw [hid] at h
    cases hnm : a.name with
    | none => rw [hnm] at h; simp [getKey] at h
    | some v2 =>
      rw [hnm] at h
      cases hurl : a.external_urls_spotify with
      | none => rw [hurl] at h; simp [getKey] at h
      | some v3 =>
        rw [hurl] at h
        simp only [getKey, exceptOkBind, pure, Except.pure, Except.ok.injEq] at h
        subst h
        rfl

/-- A successfully normalized top track carries `rank = idx + 1`. -/
lemma normalizeTopTrack_rank (idx : Nat) (t : TrackObj) (e : TopTrackEntry)
    (h : normalizeTopTrack idx t = .ok e) : e.rank = idx + 1 := by
  simp only [normalizeTopTrack] at h
  cases hid : t.id with
  | none => rw [hid] at h; simp [getKey] at h
  | some v1 =>
    rw [hid] at h
    simp only [getKey, exceptOkBind] at h
    cases hnm : t.name with
    | none => rw [hnm] at h; simp [getKey] at h
    | some v2 =>
      rw [hnm] at h
      simp only [getKey, exceptOkBind] at h
      cases hart : t.artists with
      | nil => rw [hart] at h; simp [headIdx] at h
      | cons a0 rest =>
        rw [hart] at h
        simp only [headIdx, exceptOkBind] at h
        cases han : a0.name with
        | none => rw [han] at h; simp [getKey] at h
        | some v3 =>
          rw [han] at h
          simp only [getKey, exceptOkBind] at h
          cases hai : a0.id with
          | none => rw [hai] at h; simp [getKey] at h
          | some v4 =>
            rw [hai] at h
            simp only [getKey, exceptOkBind] at h
            cases halb : t.album with
            | none => rw [halb] at h; simp [getKey] at h
            | some alb =>
              rw [halb] at h
              simp only [getKey, exceptOkBind] at h
              cases hbn : alb.name with
              | none => rw [hbn] at h; simp [getKey] at h
              | some v5 =>
                rw [hbn] at h
                simp only [getKey, exceptOkBind] at h
                cases hurl : t.external_urls_spotify with
                | none => rw [hurl] at h; simp [getKey] at h
                | some v6 =>
                  rw [hurl] at h
                  simp only [getKey, exceptOkBind, pure, Except.pure, Except.ok.injEq] at h
                  subst h
                  rfl

/-- Every entry of a successfully built top-artists record has
`rank = index + 1`. -/
lemma mkTopArtistsRecord_rank (tr : String) (items : List ArtistObj) (r : TopStatsArtistsRecord)
    (h : mkTopArtistsRecord tr items = .ok r) :
    ∀ i (hi : i < r.artists.length), (r.artists.get ⟨i, hi⟩).rank = i + 1 := by
  cases hl : rankTopArtists items with
  | error e => simp [mkTopArtistsRecord, hl] at h
  | ok l =>
    simp only [mkTopArtistsRecord, hl, exceptOkBind, pure, Except.pure, Except.ok.injEq] at h
    subst h
    intro i hi
    rw [rankTopArtists] at hl
    simpa using mapIdxE_rank normalizeTopArtist (fun e => e.rank) normalizeTopArtist_rank
      0 items l hl i (by simpa using hi)

/-- Every entry of a successfully built top-tracks record has
`rank = index + 1`. -/
lemma mkTopTracksRecord_rank (tr : String) (items : List TrackObj) (r : TopStatsTracksRecord)
    (h : mkTopTracksRecord tr items = .ok r) :
    ∀ i (hi : i < r.tracks.length), (r.tracks.get ⟨i, hi⟩).rank = i + 1 := by
  cases hl : rankTopTracks items with
  | error e => simp [mkTopTracksRecord, hl] at h
  | ok l =>
    simp only [mkTopTracksRecord, hl, exceptOkBind, pure, Except.pure, Except.ok.injEq] at h
    subst h
    intro i hi
    rw [rankTopTracks] at hl
    simpa using mapIdxE_rank normalizeTopTrack (fun e => e.rank) normalizeTopTrack_rank
      0 items l hl i (by simpa using hi)

/-- Each of the six records of a successful `_fetch_top_stats` call was built
by the corresponding record constructor. -/
lemma fetch_top_stats_components (aS aM aL : Except FetchError (List ArtistObj))
    (tS tM tL : Except FetchError (List TrackObj)) (g : TopStatsGroup)
    (h : fetch_top_stats aS aM aL tS tM tL = .ok g) :
    (∃ i, mkTopArtistsRecord TIME_RANGE_SHORT i = .ok g.top_artists_4weeks)
    ∧ (∃ i, mkTopArtistsRecord TIME_RANGE_MEDIUM i = .ok g.top_artists_6months)
    ∧ (∃ i, mkTopArtistsRecord TIME_RANGE_LONG i = .ok g.top_artists_alltime)
    ∧ (∃ i, mkTopTracksRecord TIME_RANGE_SHORT i = .ok g.top_tracks_4weeks)
    ∧ (∃ i, mkTopTracksRecord TIME_RANGE_MEDIUM i = .ok g.top_tracks_6months)
    ∧ (∃ i, mkTopTracksRecord TIME_RANGE_LONG i = .ok g.top_tracks_alltime) := by
  simp only [fetch_top_stats] at h
  cases haS : aS with
  | error e => rw [haS] at h; simp at h
  | ok iS =>
  rw [haS] at h
  simp only [exceptOkBind] at h
  cases hrS : mkTopArtistsRecord TIME_RANGE_SHORT iS with
  | error e => rw [hrS] at h; simp at h
  | ok rS =>
  rw [hrS] at h
  simp only [exceptOkBind] at h
  cases haM : aM with
  | error e => rw [haM] at h; simp at h
  | ok iM =>
  rw [haM] at h
  simp only [exceptOkBind] at h
  cases hrM : mkTopArtistsRecord TIME_RANGE_MEDIUM iM with
  | error e => rw [hrM] at h; simp at h
  | ok rM =>
  rw [hrM] at h
  simp only [exceptOkBind] at h
  cases haL : aL with
  | error e => rw [haL] at h; simp at h
  | ok iL =>
  rw [haL] at h
  simp only [exceptOkBind] at h
  cases hrL : mkTopArtistsRecord TIME_RANGE_LONG iL with
  | error e => rw [hrL] at h; simp at h
  | ok rL =>
  rw [hrL] at h
  simp only [exceptOkBind] at h
  cases htS : tS with
  | error e => rw [htS] at h; simp at h
  | ok jS =>
  rw [htS] at h
  simp only [exceptOkBind] at h
  cases hsS : mkTopTracksRecord TIME_RANGE_SHORT jS with
  | error e => rw [hsS] at h; simp at h
  | ok sS =>
  rw [hsS] at h
  simp only [exceptOkBind] at h
  cases htM : tM with
  | error e => rw [htM] at h; simp at h
  | ok jM =>
  rw [htM] at h
  simp only [exceptOkBind] at h
  cases hsM : mkTopTracksRecord TIME_RANGE_MEDIUM jM with
  | error e => rw [hsM] at h; simp at h
  | ok sM =>
  rw [hsM] at h
  simp only [exceptOkBind] at h
  cases htL : tL with
  | error e => rw [htL] at h; simp at h
  | ok jL =>
  rw [htL] at h
  simp only [exceptOkBind] at h
  cases hsL : mkTopTracksRecord TIME_RANGE_LONG jL with
  | error e => rw [hsL] at h; simp at h
  | ok sL =>
  rw [hsL] at h
  simp only [exceptOkBind, pure, Except.pure, Except.ok.injEq] at h
  subst h
  exact ⟨⟨iS, hrS⟩, ⟨iM, hrM⟩, ⟨iL, hrL⟩, ⟨jS, hsS⟩, ⟨jM, hsM⟩, ⟨jL, hsL⟩⟩

/-- Appending to an existing CSV file whose rows already cover every source
track timestamp leaves the file untouched. -/
lemma export_subset_noop (username : String) (tracks : List PlayedTrack)
    (f : Option (List ExportRow)) (hf : f.isSome = true)
    (hsub : ∀ t ∈ tracks, t.played_at ∈ (f.getD []).map ExportRow.played_at) :
    export_recently_played_csv username tracks true f = f := by
  by_cases h0 : tracks.isEmpty = true
  · simp only [export_recently_played_csv]
    rw [if_pos h0]
  · have hnt : tracks.filter
        (fun t => !((if true && f.isSome then (f.getD []).map (·.played_at) else []).contains
          t.played_at)) = [] := by
      rw [List.filter_eq_nil_iff]
      intro t ht
      have hc : (true && f.isSome) = true := by simp [hf]
      rw [if_pos hc]
      simpa using hsub t ht
    simp only [export_recently_played_csv]
    rw [if_neg h0, hnt]
    simp

/-- One CSV export in append mode either leaves the file untouched or
produces a file whose rows cover every source track timestamp. -/
lemma export_covers (username : String) (tracks : List PlayedTrack)
    (f : Option (List ExportRow)) :
    export_recently_played_csv username tracks true f = f
    ∨ (∃ L, export_recently_played_csv username tracks true f = some L
        ∧ ∀ t ∈ tracks, t.played_at ∈ L.map ExportRow.played_at) := by
  cases f with
  | none =>
    by_cases h0 : tracks.isEmpty = true
    · left
      simp only [export_recently_played_csv]
      rw [if_pos h0]
    · right
      simp only [export_recently_played_csv]
      rw [if_neg h0]
      simp [h0]
      exact fun t ht => ⟨t, ht, rfl⟩
  | some rows0 =>
    by_cases h0 : tracks.isEmpty = true
    · left
      simp only [export_recently_played_csv]
      rw [if_pos h0]
    · simp only [export_recently_played_csv]
      rw [if_neg h0]
      simp [h0]
      by_cases hcov : ∀ a ∈ tracks, ∃ x ∈ rows0, x.played_at = a.played_at
      · left
        intro x hx _
        exact hcov
      · right
        refine ⟨rows0 ++ (tracks.filter
            (fun t => !decide (∃ a ∈ rows0, a.played_at = t.played_at))).map
              (toExportRow username),
          by rw [if_neg hcov], ?_⟩
        intro t ht
        by_cases hmem : ∃ x ∈ rows0, x.played_at = t.played_at
        · obtain ⟨x, hx, hxe⟩ := hmem
          exact ⟨x, List.mem_append_left _ hx, hxe⟩
        · refine ⟨toExportRow username t, List.mem_append_right _ ?_, rfl⟩
          refine List.mem_map.mpr ⟨t, ?_, rfl⟩
          rw [List.mem_filter]
          refine ⟨ht, ?_⟩
          simpa using hmem

/-- Structure of a successful bucket phase: which gated buckets were
fetched, how the two staleness timestamps advance, and how the gated
buckets of the new snapshot relate to the fetched or carried-forward
records. -/
lemma update_data_buckets_ok_spec (st : CoordState) (now : Int) (env : RemoteEnv)
    (snap : Snapshot) (lF lT : Option Int) (cs : CycleCalls)
    (h : update_data_buckets st now env = (.ok snap, lF, lT, cs)) :
    cs.fetched_followed = should_update_followed st.last_followed_update now
    ∧ cs.fetched_top_stats = should_update_top_stats st.last_top_stats_update now
    ∧ lF = (if should_update_followed st.last_followed_update now then some now
            else st.last_followed_update)
    ∧ lT = (if should_update_top_stats st.last_top_stats_update now then some now
            else st.last_top_stats_update)
    ∧ (should_update_followed st.last_followed_update now = false →
        snap.followed_artists = st.data.followed_artists)
    ∧ (should_update_followed st.last_followed_update now = true →
        ∃ r, fetch_followed_artists env.followed = .ok r ∧ snap.followed_artists = some r)
    ∧ (should_update_top_stats st.last_top_stats_update now = false →
        snap.top_artists_4weeks = st.data.top_artists_4weeks
        ∧ snap.top_artists_6months = st.data.top_artists_6months
        ∧ snap.top_artists_alltime = st.data.top_artists_alltime
        ∧ snap.top_tracks_4weeks = st.data.top_tracks_4weeks
        ∧ snap.top_tracks_6months = st.data.top_tracks_6months
        ∧ snap.top_tracks_alltime = st.data.top_tracks_alltime)
    ∧ (should_update_top_stats st.last_top_stats_update now = true →
        ∃ g, fetch_top_stats env.top_artists_short env.top_artists_medium env.top_artists_long
              env.top_tracks_short env.top_tracks_medium env.top_tracks_long = .ok g
          ∧ snap.top_artists_4weeks = some g.top_artists_4weeks
          ∧ snap.top_artists_6months = some g.top_artists_6months
          ∧ snap.top_artists_alltime = some g.top_artists_alltime
          ∧ snap.top_tracks_4weeks = some g.top_tracks_4weeks
          ∧ snap.top_tracks_6months = some g.top_tracks_6months
          ∧ snap.top_tracks_alltime = some g.top_tracks_alltime) := by
  simp only [update_data_buckets] at h
  cases hnp : fetch_now_playing env.now_playing with
  | error e => rw [hnp] at h; simp at h
  | ok np =>
  rw [hnp] at h
  dsimp only at h
  cases hrp : fetch_recently_played env.recently_played with
  | error e => rw [hrp] at h; simp at h
  | ok rp =>
  rw [hrp] at h
  dsimp only at h
  cases hfa : followed_step st now env with
  | error e => rw [hfa] at h; simp at h
  | ok fa =>
  rw [hfa] at h
  dsimp only at h
  cases htg : top_step st now env with
  | error e => rw [htg] at h; simp at h
  | ok tg =>
  rw [htg] at h
  dsimp only at h
  simp only [Prod.mk.injEq, Except.ok.injEq] at h
  obtain ⟨h1, h2, h3, h4⟩ := h
  subst h1
  subst h2
  subst h3
  subst h4
  refine ⟨rfl, rfl, rfl, rfl, ?_, ?_, ?_, ?_⟩
  · intro hf
    simp only [followed_step, hf] at hfa
    simp only [Bool.false_eq_true, if_false, Except.ok.injEq] at hfa
    cases tg <;> exact hfa.symm
  · intro hf
    simp only [followed_step, hf, if_true] at hfa
    cases hr : fetch_followed_artists env.followed with
    | error e => rw [hr] at hfa; simp [Except.map] at hfa
    | ok r =>
      rw [hr] at hfa
      simp only [Except.map, Except.ok.injEq] at hfa
      refine ⟨r, rfl, ?_⟩
      cases tg <;> exact hfa.symm
  · intro ht
    simp only [top_step, ht] at htg
    simp only [Bool.false_eq_true, if_false, Except.ok.injEq] at htg
    subst htg
    exact ⟨rfl, rfl, rfl, rfl, rfl, rfl⟩
  · intro ht
    simp only [top_step, ht, if_true] at htg
    cases hg : fetch_top_stats env.top_artists_short env.top_artists_medium env.top_artists_long
        env.top_tracks_short env.top_tracks_medium env.top_tracks_long with
    | error e => rw [hg] at htg; simp [Except.map] at htg
    | ok g =>
      rw [hg] at htg
      simp only [Except.map, Except.ok.injEq] at htg
      subst htg
      exact ⟨g, rfl, rfl, rfl, rfl, rfl, rfl, rfl⟩

/-- A successful refresh cycle is exactly a successful bucket phase, and the
committed state stores the new snapshot. -/
lemma async_update_data_ok (st : CoordState) (now : Int)
    (sess : Except SessionError TokenDict) (env : RemoteEnv)
    (snap : Snapshot) (st2 : CoordState) (cs : CycleCalls)
    (h : async_update_data st now sess env = (.ok snap, st2, cs)) :
    update_data_buckets st now env
      = (.ok snap, st2.last_followed_update, st2.last_top_stats_update, cs)
    ∧ st2.data = snap := by
  simp only [async_update_data] at h
  cases htok : async_ensure_token_valid sess with
  | error e => rw [htok] at h; simp at h
  | ok tok =>
  rw [htok] at h
  dsimp only at h
  rcases hub : update_data_buckets st now env with ⟨res, lF, lT, cs0⟩
  rw [hub] at h
  cases res with
  | error e => simp at h
  | ok s =>
    simp only [Prod.mk.injEq, Except.ok.injEq] at h
    obtain ⟨h1, h2, h3⟩ := h
    subst h1
    subst h3
    rw [← h2]
    exact ⟨rfl, rfl⟩

/-- A fetch error without the 401 status classifies as `UpdateFailed`
carrying that error. -/
lemma classify_not_auth (e : FetchError) (h : is_auth_error e = false) :
    classifyFetchError e = .updateFailed e := by
  cases e with
  | api status m =>
    simp only [is_auth_error, beq_eq_false_iff_ne, ne_eq] at h
    simp [classifyFetchError, h]
  | keyError k => rfl



/-- C6 (counterexample): a merely transient network/backend failure of the
Session Provider during token acquisition DOES produce `AuthRequired` —
`_async_ensure_token_valid` wraps its whole body in
`except Exception: raise ConfigEntryAuthFailed`, so the claimed distinction
between credential errors and transient failures does not exist. -/
theorem c6_counterexample :
    async_ensure_token_valid (.error SessionError.transientNetwork)
      = .error CycleError.authRequired := rfl

/-- C6 (amended): the token-acquisition step fails with `AuthRequired` on
EVERY Session Provider failure — consent revocation and transient
network/backend failure alike — and also when the returned token payload
carries no access token; the host is prompted to re-authorize in all of
these cases, not only for genuine credential errors. -/
theorem c6_amended :
    ∀ e : SessionError,
      async_ensure_token_valid (.error e) = .error CycleError.authRequired
      ∧ async_ensure_token_valid (.ok ⟨none⟩) = .error CycleError.authRequired := by
  intro e
  exact ⟨by cases e <;> rfl, rfl⟩

/-- C7: a reconfiguration call whose provided intervals pass the service
schema bounds (now-playing in [30, 300] s, recently-played in [300, 3600] s)
leaves the scheduling tick period equal to the minimum of the two updated
interval values and triggers exactly one immediate extra refresh request. -/
theorem c7_set_update_interval (st : IntervalState) (np rp : Option Nat)
    (h : set_update_interval_schema_valid np rp = true) :
    (async_set_update_interval st np rp).update_interval
      = min (np.getD st.now_playing_interval) (rp.getD st.recently_played_interval)
    ∧ (async_set_update_interval st np rp).refresh_requests = st.refresh_requests + 1 := by
  cases np <;> cases rp <;> simp [async_set_update_interval]

/-- Witness for C7: reconfiguring from (30 s, 300 s) to (60 s, 600 s) yields
a 60 s tick period and one refresh request. -/
theorem c7_witness :
    set_update_interval_schema_valid (some 60) (some 600) = true
    ∧ ((async_set_update_interval ⟨30, 300, 30, 0⟩ (some 60) (some 600)).update_interval
         = min ((some 60).getD 30) ((some 600).getD 300)
       ∧ (async_set_update_interval ⟨30, 300, 30, 0⟩ (some 60) (some 600)).refresh_requests
         = 0 + 1) :=
  ⟨by decide, c7_set_update_interval ⟨30, 300, 30, 0⟩ (some 60) (some 600) (by decide)⟩

/-- C1 (amended): when the Session Provider yields a valid token and the
bucket-fetch phase fails with an HTTP-401 `SpotifyException`, the whole cycle
fails with `AuthRequired` and the committed snapshot is left unchanged. The
original claim's extension to the playlists, saved-tracks and saved-albums
fetchers is dropped: those three fetchers swallow every error (401 included)
and commit an empty fallback record instead — only errors of the now-playing,
recently-played, followed-artists and top-stats fetchers can reach the
cycle's 401 classifier (see the counterexample). -/
theorem c1_auth_abort (st : CoordState) (now : Int)
    (sess : Except SessionError TokenDict) (env : RemoteEnv) (tok msg : String)
    (htok : async_ensure_token_valid sess = .ok tok)
    (hb : (update_data_buckets st now env).1 = .error (.api 401 msg)) :
    (async_update_data st now sess env).1 = .error CycleError.authRequired
    ∧ (async_update_data st now sess env).2.1.data = st.data := by
  simp only [async_update_data, htok]
  rcases hub : update_data_buckets st now env with ⟨res, lF, lT, cs0⟩
  rw [hub] at hb
  dsimp only at hb
  subst hb
  dsimp only
  simp [classifyFetchError]

/-- Witness for C1: a 401 from the now-playing call at a concrete state
aborts the cycle with `AuthRequired` and commits nothing. -/
theorem c1_witness :
    async_ensure_token_valid tokOk = .ok "token"
    ∧ (update_data_buckets st0 0 envNp401).1 = .error (.api 401 "Unauthorized")
    ∧ ((async_update_data st0 0 tokOk envNp401).1 = .error CycleError.authRequired
      ∧ (async_update_data st0 0 tokOk envNp401).2.1.data = st0.data) :=
  ⟨by decide, by decide,
   c1_auth_abort st0 0 tokOk envNp401 "token" "Unauthorized" (by decide) (by decide)⟩

/-- C1 (counterexample): with a previously committed snapshot holding a
playlists record with `count = 7`, a refresh cycle in which the playlists
call fails with HTTP 401 SUCCEEDS (no `AuthRequired`), and it commits a new
snapshot whose playlists bucket is the empty fallback record — contradicting
the claim that a 401 during the playlists fetch fails the cycle and leaves
the snapshot unchanged. -/
theorem c1_counterexample :
    cycleSucceeded (async_update_data stPrev 0 tokOk envPl401).1 = true
    ∧ (async_update_data stPrev 0 tokOk envPl401).2.1.data.user_playlists
        = some { count := 0, playlists := [], all_playlists := [] }
    ∧ stPrev.data.user_playlists
        = some { count := 7, playlists := [], all_playlists := [] } := by
  exact ⟨by decide, by decide, by decide⟩

/-- C2 (amended): when the Session Provider yields a valid token and the
bucket-fetch phase fails with any non-401 error, the whole cycle fails with
`UpdateFailed` carrying the underlying cause and the committed snapshot is
left unchanged. The original claim's extension to the playlists,
saved-tracks and saved-albums fetchers is dropped: those three fetchers
swallow every error and commit an empty fallback record, overwriting the
bucket's previous value (see the counterexample). -/
theorem c2_nonauth_abort (st : CoordState) (now : Int)
    (sess : Except SessionError TokenDict) (env : RemoteEnv) (tok : String) (e : FetchError)
    (htok : async_ensure_token_valid sess = .ok tok)
    (hb : (update_data_buckets st now env).1 = .error e)
    (hna : is_auth_error e = false) :
    (async_update_data st now sess env).1 = .error (CycleError.updateFailed e)
    ∧ (async_update_data st now sess env).2.1.data = st.data := by
  simp only [async_update_data, htok]
  rcases hub : update_data_buckets st now env with ⟨res, lF, lT, cs0⟩
  rw [hub] at hb
  dsimp only at hb
  subst hb
  dsimp only
  rw [classify_not_auth e hna]
  exact ⟨rfl, rfl⟩

/-- Witness for C2: a 502 from the now-playing call at a concrete state
aborts the cycle with `UpdateFailed` carrying that error, committing
nothing. -/
theorem c2_witness :
    async_ensure_token_valid tokOk = .ok "token"
    ∧ (update_data_buckets st0 0 envNp502).1 = .error (.api 502 "Bad gateway")
    ∧ is_auth_error (.api 502 "Bad gateway") = false
    ∧ ((async_update_data st0 0 tokOk envNp502).1
        = .error (CycleError.updateFailed (.api 502 "Bad gateway"))
      ∧ (async_update_data st0 0 tokOk envNp502).2.1.data = st0.data) :=
  ⟨by decide, by decide, by decide,
   c2_nonauth_abort st0 0 tokOk envNp502 "token" (.api 502 "Bad gateway")
     (by decide) (by decide) (by decide)⟩

/-- C2 (counterexample): with a previously committed snapshot holding a
saved-tracks record with `count = 9`, a refresh cycle in which the
saved-tracks probe call fails with HTTP 500 SUCCEEDS (no `UpdateFailed`),
and it commits a snapshot whose saved-tracks bucket is the empty fallback
record — contradicting the claim that a non-auth error during the
saved-tracks fetch fails the cycle and leaves the snapshot unchanged. -/
theorem c2_counterexample :
    cycleSucceeded (async_update_data stPrev 0 tokOk envSt500).1 = true
    ∧ (async_update_data stPrev 0 tokOk envSt500).2.1.data.saved_tracks
        = some { count := 0, tracks := [] }
    ∧ stPrev.data.saved_tracks = some { count := 9, tracks := [] } := by
  exact ⟨by decide, by decide, by decide⟩

/-- C3: in every successful refresh cycle the followed-artists bucket is
re-fetched exactly when `_last_followed_update` is unset or at least 3600
seconds have elapsed since it; when not due, the cycle issues zero remote
calls for the bucket and the new snapshot carries the previous snapshot's
value forward unchanged, with the timestamp untouched; when due, the
timestamp advances to the cycle's current time and the snapshot holds the
freshly fetched record. -/
theorem c3_followed_gate (st : CoordState) (now : Int)
    (sess : Except SessionError TokenDict) (env : RemoteEnv)
    (snap : Snapshot) (st2 : CoordState) (cs : CycleCalls)
    (h : async_update_data st now sess env = (.ok snap, st2, cs)) :
    cs.fetched_followed = should_update_followed st.last_followed_update now
    ∧ (should_update_followed st.last_followed_update now = true
        ↔ (st.last_followed_update = none
            ∨ ∃ t, st.last_followed_update = some t ∧ 3600 ≤ now - t))
    ∧ (should_update_followed st.last_followed_update now = false →
        cs.fetched_followed = false
        ∧ snap.followed_artists = st.data.followed_artists
        ∧ st2.last_followed_update = st.last_followed_update)
    ∧ (should_update_followed st.last_followed_update now = true →
        st2.last_followed_update = some now
        ∧ ∃ r, fetch_followed_artists env.followed = .ok r
            ∧ snap.followed_artists = some r) := by
  obtain ⟨hub, hdata⟩ := async_update_data_ok st now sess env snap st2 cs h
  obtain ⟨hcs, hcst, hlF, hlT, hfF, hfT, htF, htT⟩ :=
    update_data_buckets_ok_spec st now env snap
      st2.last_followed_update st2.last_top_stats_update cs hub
  refine ⟨hcs, ?_, ?_, ?_⟩
  · cases hl : st.last_followed_update with
    | none => simp [should_update_followed]
    | some t => simp [should_update_followed, UPDATE_INTERVAL_FOLLOWED]
  · intro hf
    exact ⟨hcs.trans hf, hfF hf, by rw [hlF, if_neg (by simp [hf])]⟩
  · intro hf
    exact ⟨by rw [hlF, if_pos (by simp [hf])], hfT hf⟩

/-- Witness for C3: the first refresh cycle at time 0 over the happy
environment fetches the followed-artists bucket and advances its
timestamp. -/
theorem c3_witness :
    async_update_data st0 0 tokOk envOk
      = (.ok snapW, ⟨some 0, some 0, snapW⟩, ⟨true, true⟩)
    ∧ ((⟨true, true⟩ : CycleCalls).fetched_followed
        = should_update_followed st0.last_followed_update 0
      ∧ (should_update_followed st0.last_followed_update 0 = true
          ↔ (st0.last_followed_update = none
              ∨ ∃ t, st0.last_followed_update = some t ∧ 3600 ≤ 0 - t))
      ∧ (should_update_followed st0.last_followed_update 0 = false →
          (⟨true, true⟩ : CycleCalls).fetched_followed = false
          ∧ snapW.followed_artists = st0.data.followed_artists
          ∧ (⟨some 0, some 0, snapW⟩ : CoordState).last_followed_update
              = st0.last_followed_update)
      ∧ (should_update_followed st0.last_followed_update 0 = true →
          (⟨some 0, some 0, snapW⟩ : CoordState).last_followed_update = some 0
          ∧ ∃ r, fetch_followed_artists envOk.followed = .ok r
              ∧ snapW.followed_artists = some r)) :=
  ⟨by decide,
   c3_followed_gate st0 0 tokOk envOk snapW ⟨some 0, some 0, snapW⟩ ⟨true, true⟩ (by decide)⟩

/-- C4: the six top-stats records share one staleness clock: in every
successful refresh cycle they are re-fetched exactly when
`_last_top_stats_update` is unset or at least 86400 seconds have elapsed,
and then all six snapshot fields come from one `_fetch_top_stats` group and
the timestamp advances to the cycle's current time; otherwise none is
fetched and all six are carried forward from the previous snapshot with the
timestamp untouched. -/
theorem c4_top_stats_gate (st : CoordState) (now : Int)
    (sess : Except SessionError TokenDict) (env : RemoteEnv)
    (snap : Snapshot) (st2 : CoordState) (cs : CycleCalls)
    (h : async_update_data st now sess env = (.ok snap, st2, cs)) :
    cs.fetched_top_stats = should_update_top_stats st.last_top_stats_update now
    ∧ (should_update_top_stats st.last_top_stats_update now = true
        ↔ (st.last_top_stats_update = none
            ∨ ∃ t, st.last_top_stats_update = some t ∧ 86400 ≤ now - t))
    ∧ (should_update_top_stats st.last_top_stats_update now = false →
        cs.fetched_top_stats = false
        ∧ st2.last_top_stats_update = st.last_top_stats_update
        ∧ snap.top_artists_4weeks = st.data.top_artists_4weeks
        ∧ snap.top_artists_6months = st.data.top_artists_6months
        ∧ snap.top_artists_alltime = st.data.top_artists_alltime
        ∧ snap.top_tracks_4weeks = st.data.top_tracks_4weeks
        ∧ snap.top_tracks_6months = st.data.top_tracks_6months
        ∧ snap.top_tracks_alltime = st.data.top_tracks_alltime)
    ∧ (should_update_top_stats st.last_top_stats_update now = true →
        st2.last_top_stats_update = some now
        ∧ ∃ g, fetch_top_stats env.top_artists_short env.top_artists_medium
              env.top_artists_long env.top_tracks_short env.top_tracks_medium
              env.top_tracks_long = .ok g
            ∧ snap.top_artists_4weeks = some g.top_artists_4weeks
            ∧ snap.top_artists_6months = some g.top_artists_6months
            ∧ snap.top_artists_alltime = some g.top_artists_alltime
            ∧ snap.top_tracks_4weeks = some g.top_tracks_4weeks
            ∧ snap.top_tracks_6months = some g.top_tracks_6months
            ∧ snap.top_tracks_alltime = some g.top_tracks_alltime) := by
  obtain ⟨hub, hdata⟩ := async_update_data_ok st now sess env snap st2 cs h
  obtain ⟨hcs, hcst, hlF, hlT, hfF, hfT, htF, htT⟩ :=
    update_data_buckets_ok_spec st now env snap
      st2.last_followed_update st2.last_top_stats_update cs hub
  refine ⟨hcst, ?_, ?_, ?_⟩
  · cases hl : st.last_top_stats_update with
    | none => simp [should_update_top_stats]
    | some t => simp [should_update_top_stats, UPDATE_INTERVAL_TOP_STATS]
  · intro ht
    exact ⟨hcst.trans ht, by rw [hlT, if_neg (by simp [ht])], htF ht⟩
  · intro ht
    exact ⟨by rw [hlT, if_pos (by simp [ht])], htT ht⟩

/-- Witness for C4: the first refresh cycle at time 0 over the happy
environment fetches all six top-stats records together and advances the
shared timestamp. -/
theorem c4_witness :
    async_update_data st0 0 tokOk envOk
      = (.ok snapW, ⟨some 0, some 0, snapW⟩, ⟨true, true⟩)
    ∧ ((⟨true, true⟩ : CycleCalls).fetched_top_stats
        = should_update_top_stats st0.last_top_stats_update 0
      ∧ (should_update_top_stats st0.last_top_stats_update 0 = true
          ↔ (st0.last_top_stats_update = none
              ∨ ∃ t, st0.last_top_stats_update = some t ∧ 86400 ≤ 0 - t))
      ∧ (should_update_top_stats st0.last_top_stats_update 0 = false →
          (⟨true, true⟩ : CycleCalls).fetched_top_stats = false
          ∧ (⟨some 0, some 0, snapW⟩ : CoordState).last_top_stats_update
              = st0.last_top_stats_update
          ∧ snapW.top_artists_4weeks = st0.data.top_artists_4weeks
          ∧ snapW.top_artists_6months = st0.data.top_artists_6months
          ∧ snapW.top_artists_alltime = st0.data.top_artists_alltime
          ∧ snapW.top_tracks_4weeks = st0.data.top_tracks_4weeks
          ∧ snapW.top_tracks_6months = st0.data.top_tracks_6months
          ∧ snapW.top_tracks_alltime = st0.data.top_tracks_alltime)
      ∧ (should_update_top_stats st0.last_top_stats_update 0 = true →
          (⟨some 0, some 0, snapW⟩ : CoordState).last_top_stats_update = some 0
          ∧ ∃ g, fetch_top_stats envOk.top_artists_short envOk.top_artists_medium
                envOk.top_artists_long envOk.top_tracks_short envOk.top_tracks_medium
                envOk.top_tracks_long = .ok g
              ∧ snapW.top_artists_4weeks = some g.top_artists_4weeks
              ∧ snapW.top_artists_6months = some g.top_artists_6months
              ∧ snapW.top_artists_alltime = some g.top_artists_alltime
              ∧ snapW.top_tracks_4weeks = some g.top_tracks_4weeks
              ∧ snapW.top_tracks_6months = some g.top_tracks_6months
              ∧ snapW.top_tracks_alltime = some g.top_tracks_alltime)) :=
  ⟨by decide,
   c4_top_stats_gate st0 0 tokOk envOk snapW ⟨some 0, some 0, snapW⟩ ⟨true, true⟩ (by decide)⟩

/-- C5 (amended): a per-item normalization failure (e.g. a deleted track
with no album, or an album with no artists) causes only that single item to
be skipped in the saved-tracks and saved-albums fetchers — the surrounding
items are normalized as if the bad item were absent, and the fetch never
aborts. The original claim's extension to the recently-played fetcher is
dropped: that fetcher accesses every field directly with no per-item guard,
so a missing field aborts its whole fetch (see the counterexample). -/
theorem c5_item_skip
    (pre post : List SavedTrackItem) (item : SavedTrackItem) (track : TrackObj)
    (hti : item.track = some track) (halb : track.album = none)
    (preA postA : List SavedAlbumItem) (itemA : SavedAlbumItem) (alb : AlbumObj)
    (hai : itemA.album = some alb) (hart : alb.artists = []) :
    savedTracksFull (pre ++ item :: post) = savedTracksFull (pre ++ post)
    ∧ savedAlbumsFull (preA ++ itemA :: postA) = savedAlbumsFull (preA ++ postA) := by
  have h1 : normalizeSavedTrack item = none := by
    simp [normalizeSavedTrack, hti, halb]
  have h2 : normalizeSavedAlbum itemA = none := by
    simp [normalizeSavedAlbum, hai, hart]
  constructor
  · simp [savedTracksFull, List.filterMap_append, List.filterMap_cons, h1]
  · simp [savedAlbumsFull, List.filterMap_append, List.filterMap_cons, h2]

/-- Witness for C5: a saved track without an album and a saved album
without artists are each skipped, leaving the neighbouring good items
normalized. -/
theorem c5_witness :
    badSavedItem.track = some trackNoAlbum
    ∧ trackNoAlbum.album = none
    ∧ badSavedAlbumItem.album = some albNoArtists
    ∧ albNoArtists.artists = []
    ∧ (savedTracksFull ([] ++ badSavedItem :: [goodSavedItem])
        = savedTracksFull ([] ++ [goodSavedItem])
      ∧ savedAlbumsFull ([] ++ badSavedAlbumItem :: [goodSavedAlbumItem])
        = savedAlbumsFull ([] ++ [goodSavedAlbumItem])) :=
  ⟨by decide, by decide, by decide, by decide,
   c5_item_skip [] [goodSavedItem] badSavedItem trackNoAlbum (by decide) (by decide)
     [] [goodSavedAlbumItem] badSavedAlbumItem albNoArtists (by decide) (by decide)⟩

/-- C5 (counterexample): a recently-played item whose track lacks an album
aborts the WHOLE recently-played fetch with a `KeyError`-style error (also
losing the good item before it), contradicting the claim that a per-item
normalization error only skips that item and never aborts the fetch. -/
theorem c5_counterexample :
    fetch_recently_played (.ok [goodRecentItem, badRecentItem])
      = .error (FetchError.keyError "album") := by decide

/-- C8: for each bucket with display truncation — followed artists,
playlists, saved tracks, saved albums — the display list has length at most
20 and is a prefix, in order, of the fetched full list, and the record's
`count` field is the untruncated total: the across-all-pages count for
followed artists and playlists, and the remote pagination `total` for the
saved library, independent of the truncated list's length. -/
theorem c8_truncation
    (pages : List (Except FetchError ArtistsPage)) (rFA : FollowedArtistsRecord)
    (hFA : fetch_followed_artists pages = .ok rFA)
    (plPages : List (Except FetchError PlaylistsPage))
    (totT : Nat) (probeT : List SavedTrackItem) (pt : Option Nat) (itemsT : List SavedTrackItem)
    (totA : Nat) (probeA : List SavedAlbumItem) (pa : Option Nat) (itemsA : List SavedAlbumItem) :
    (rFA.artists.length ≤ 20 ∧ rFA.artists <+: rFA.all_artists
      ∧ rFA.count = rFA.all_artists.length)
    ∧ ((fetch_user_playlists plPages).playlists.length ≤ 20
      ∧ (fetch_user_playlists plPages).playlists <+: (fetch_user_playlists plPages).all_playlists
      ∧ (fetch_user_playlists plPages).count = (fetch_user_playlists plPages).all_playlists.length)
    ∧ ((fetch_saved_tracks (.ok ⟨some totT, probeT⟩) (.ok ⟨pt, itemsT⟩)).tracks.length ≤ 20
      ∧ (fetch_saved_tracks (.ok ⟨some totT, probeT⟩) (.ok ⟨pt, itemsT⟩)).tracks
          <+: savedTracksFull itemsT
      ∧ (fetch_saved_tracks (.ok ⟨some totT, probeT⟩) (.ok ⟨pt, itemsT⟩)).count = totT)
    ∧ ((fetch_saved_albums (.ok ⟨some totA, probeA⟩) (.ok ⟨pa, itemsA⟩)).albums.length ≤ 20
      ∧ (fetch_saved_albums (.ok ⟨some totA, probeA⟩) (.ok ⟨pa, itemsA⟩)).albums
          <+: savedAlbumsFull itemsA
      ∧ (fetch_saved_albums (.ok ⟨some totA, probeA⟩) (.ok ⟨pa, itemsA⟩)).count = totA) := by
  refine ⟨?_, ?_, ?_, ?_⟩
  · cases hres : fetchFollowedLoop pages with
    | error e => rw [fetch_followed_artists, hres] at hFA; simp at hFA
    | ok results =>
      rw [fetch_followed_artists, hres] at hFA
      simp only [exceptOkBind, pure, Except.pure, Except.ok.injEq] at hFA
      subst hFA
      refine ⟨?_, List.take_prefix 20 results, rfl⟩
      simp [List.length_take]
  · cases hl : fetchPlaylistsLoop plPages with
    | error e => simp [fetch_user_playlists, hl]
    | ok l =>
      simp only [fetch_user_playlists, hl, exceptOkBind, pure, Except.pure]
      refine ⟨?_, List.take_prefix 20 l, by trivial⟩
      simp [List.length_take]
  · simp only [fetch_saved_tracks, getKey, exceptOkBind, pure, Except.pure]
    refine ⟨?_, List.take_prefix 20 _, by trivial⟩
    simp [List.length_take]
  · simp only [fetch_saved_albums, getKey, exceptOkBind, pure, Except.pure]
    refine ⟨?_, List.take_prefix 20 _, by trivial⟩
    simp [List.length_take]

/-- Witness for C8: concrete one-artist, zero-playlist and one-item
saved-library fetches satisfy the truncation law, with the saved-library
counts taken from the remote totals 5 and 3. -/
theorem c8_witness :
    fetch_followed_artists [.ok ⟨[artistObjW], none, none⟩] = .ok faRecW
    ∧ ((faRecW.artists.length ≤ 20 ∧ faRecW.artists <+: faRecW.all_artists
        ∧ faRecW.count = faRecW.all_artists.length)
      ∧ ((fetch_user_playlists [.ok ⟨[], none⟩]).playlists.length ≤ 20
        ∧ (fetch_user_playlists [.ok ⟨[], none⟩]).playlists
            <+: (fetch_user_playlists [.ok ⟨[], none⟩]).all_playlists
        ∧ (fetch_user_playlists [.ok ⟨[], none⟩]).count
            = (fetch_user_playlists [.ok ⟨[], none⟩]).all_playlists.length)
      ∧ ((fetch_saved_tracks (.ok ⟨some 5, []⟩) (.ok ⟨some 5, [goodSavedItem]⟩)).tracks.length ≤ 20
        ∧ (fetch_saved_tracks (.ok ⟨some 5, []⟩) (.ok ⟨some 5, [goodSavedItem]⟩)).tracks
            <+: savedTracksFull [goodSavedItem]
        ∧ (fetch_saved_tracks (.ok ⟨some 5, []⟩) (.ok ⟨some 5, [goodSavedItem]⟩)).count = 5)
      ∧ ((fetch_saved_albums (.ok ⟨some 3, []⟩)
            (.ok ⟨some 3, [goodSavedAlbumItem]⟩)).albums.length ≤ 20
        ∧ (fetch_saved_albums (.ok ⟨some 3, []⟩) (.ok ⟨some 3, [goodSavedAlbumItem]⟩)).albums
            <+: savedAlbumsFull [goodSavedAlbumItem]
        ∧ (fetch_saved_albums (.ok ⟨some 3, []⟩)
            (.ok ⟨some 3, [goodSavedAlbumItem]⟩)).count = 3)) :=
  ⟨by decide,
   c8_truncation [.ok ⟨[artistObjW], none, none⟩] faRecW (by decide) [.ok ⟨[], none⟩]
     5 [] (some 5) [goodSavedItem] 3 [] (some 3) [goodSavedAlbumItem]⟩

/-- C9: in every successfully fetched top-stats group, for each of the six
records (top artists and top tracks over the three time windows
independently) the `rank` fields form the contiguous sequence 1, 2, 3, … in
the order the items were returned: the `i`-th entry has rank `i + 1`. -/
theorem c9_ranks (aS aM aL : Except FetchError (List ArtistObj))
    (tS tM tL : Except FetchError (List TrackObj)) (g : TopStatsGroup)
    (h : fetch_top_stats aS aM aL tS tM tL = .ok g) :
    (∀ i (hi : i < g.top_artists_4weeks.artists.length),
      (g.top_artists_4weeks.artists.get ⟨i, hi⟩).rank = i + 1)
    ∧ (∀ i (hi : i < g.top_artists_6months.artists.length),
      (g.top_artists_6months.artists.get ⟨i, hi⟩).rank = i + 1)
    ∧ (∀ i (hi : i < g.top_artists_alltime.artists.length),
      (g.top_artists_alltime.artists.get ⟨i, hi⟩).rank = i + 1)
    ∧ (∀ i (hi : i < g.top_tracks_4weeks.tracks.length),
      (g.top_tracks_4weeks.tracks.get ⟨i, hi⟩).rank = i + 1)
    ∧ (∀ i (hi : i < g.top_tracks_6months.tracks.length),
      (g.top_tracks_6months.tracks.get ⟨i, hi⟩).rank = i + 1)
    ∧ (∀ i (hi : i < g.top_tracks_alltime.tracks.length),
      (g.top_tracks_alltime.tracks.get ⟨i, hi⟩).rank = i + 1) := by
  obtain ⟨⟨i1, h1⟩, ⟨i2, h2⟩, ⟨i3, h3⟩, ⟨i4, h4⟩, ⟨i5, h5⟩, ⟨i6, h6⟩⟩ :=
    fetch_top_stats_components aS aM aL tS tM tL g h
  exact ⟨mkTopArtistsRecord_rank _ _ _ h1, mkTopArtistsRecord_rank _ _ _ h2,
         mkTopArtistsRecord_rank _ _ _ h3, mkTopTracksRecord_rank _ _ _ h4,
         mkTopTracksRecord_rank _ _ _ h5, mkTopTracksRecord_rank _ _ _ h6⟩

/-- Witness for C9: a fetch whose short-range top-artists call returns one
artist yields rank 1 for it, the other five records being empty. -/
theorem c9_witness :
    fetch_top_stats (.ok [artistObjW]) (.ok []) (.ok []) (.ok []) (.ok []) (.ok [])
      = .ok topGroupW
    ∧ ((∀ i (hi : i < topGroupW.top_artists_4weeks.artists.length),
        (topGroupW.top_artists_4weeks.artists.get ⟨i, hi⟩).rank = i + 1)
      ∧ (∀ i (hi : i < topGroupW.top_artists_6months.artists.length),
        (topGroupW.top_artists_6months.artists.get ⟨i, hi⟩).rank = i + 1)
      ∧ (∀ i (hi : i < topGroupW.top_artists_alltime.artists.length),
        (topGroupW.top_artists_alltime.artists.get ⟨i, hi⟩).rank = i + 1)
      ∧ (∀ i (hi : i < topGroupW.top_tracks_4weeks.tracks.length),
        (topGroupW.top_tracks_4weeks.tracks.get ⟨i, hi⟩).rank = i + 1)
      ∧ (∀ i (hi : i < topGroupW.top_tracks_6months.tracks.length),
        (topGroupW.top_tracks_6months.tracks.get ⟨i, hi⟩).rank = i + 1)
      ∧ (∀ i (hi : i < topGroupW.top_tracks_alltime.tracks.length),
        (topGroupW.top_tracks_alltime.tracks.get ⟨i, hi⟩).rank = i + 1)) :=
  ⟨by decide,
   c9_ranks (.ok [artistObjW]) (.ok []) (.ok []) (.ok []) (.ok []) (.ok [])
     topGroupW (by decide)⟩

/-- C10: running the recently-played CSV export in append mode twice over
identical source data writes no duplicate rows — every track whose
played-at timestamp already appears in the file is filtered out before
writing, so the second run leaves the file exactly as the first run left
it. -/
theorem c10_csv_append_idempotent (username : String) (tracks : List PlayedTrack)
    (file : Option (List ExportRow)) :
    export_recently_played_csv username tracks true
        (export_recently_played_csv username tracks true file)
      = export_recently_played_csv username tracks true file := by
  rcases export_covers username tracks file with h | ⟨L, hL, hmem⟩
  · rw [h]
    exact h
  · rw [hL]
    exact export_subset_noop username tracks (some L) rfl (by simpa using hmem)


end SpotifyStats
